import Mathlib

/-!
Verification of the Smart-SOS environment-monitoring dashboard (`main.py`).

The program keeps an in-memory log of simulated sensor readings, persists it
to a CSV file via pandas (`load_data` / `save_data`), appends one generated
reading per refresh while the simulation checkbox is on, applies an optional
inclusive date-range filter, and renders the (possibly filtered) view.

Shallow embedding conventions:
* A reading's numeric fields are exact rationals (`ℚ`), modelling the Python
  floats the program computes with.
* A timestamp is a calendar day (`ℤ`, day ordinal) plus the microsecond of
  the day (`ℕ`); `datetime.now()` always produces a microsecond count below
  86_400_000_000, and the datetime text written by `to_csv` determines the
  pair uniquely.
* The text of one CSV cell is abstracted by `Cell`: `Cell.dec m s` stands for
  the canonical decimal numeral with value `m / 10^s` and `s` digits after
  the point (for example 29.5 is `Cell.dec 295 1`, the text pandas writes for
  the float 29.5), `Cell.dt t` stands for the canonical datetime text for
  `t`, and `Cell.text s` for any other (non-numeric, non-datetime) text.
* pandas `read_csv` is modelled by `read_csv`: it rejects rows whose width
  differs from the header (ParserError for ragged rows), rejects a file whose
  header lacks the `parse_dates` column `timestamp` (ValueError), and
  otherwise types each column all-or-nothing: a column converts to numbers
  (or, for `timestamp`, to datetimes) only when every cell parses, and is
  otherwise kept verbatim as unparsed text — pandas never fails on a cell
  that merely has the wrong kind of content.
* `save_data` models `df.to_csv(DATA_FILE, index=False)`: it replaces the
  backing file's contents wholesale with the rendered log, regardless of what
  the file held before. `renderQ` is pandas' decimal rendering, faithful for
  values with at most two decimal places — the only values the program
  produces (`round(…, 2)` everywhere).
* One Streamlit rerun of the script is `scriptRun`; the `st.session_state`
  cache and the backing file form `AppState`.  A rerun that would crash
  (corrupt load) is `none`.
-/

namespace SmartSOS

/-- A point in time: calendar day ordinal and microsecond of that day. -/
structure Timestamp where
  day : ℤ
  usec : ℕ
  deriving DecidableEq

/-- One sensor observation, as built by `generate_iot_reading` in `main.py`. -/
structure Reading where
  timestamp : Timestamp
  temperature : ℚ
  humidity : ℚ
  airflow : ℚ
  deriving DecidableEq

/-- Round-half-to-even to an integer: the rounding mode of Python's built-in
`round`. -/
def roundHalfEven (q : ℚ) : ℤ :=
  if q - ⌊q⌋ < 1/2 then ⌊q⌋
  else if 1/2 < q - ⌊q⌋ then ⌊q⌋ + 1
  else if ⌊q⌋ % 2 = 0 then ⌊q⌋ else ⌊q⌋ + 1

/-- Python's `round(x, 2)`. -/
def round2 (q : ℚ) : ℚ := (roundHalfEven (q * 100) : ℚ) / 100

/-- Python's `random.uniform(a, b) = a + (b - a) * random()` with
`random() = u ∈ [0, 1]` (the endpoint may be attained after rounding,
per the documentation of `random.uniform`). -/
def uniform (a b u : ℚ) : ℚ := a + (b - a) * u

/-- `generate_iot_reading` of `main.py`, with the wall clock and the three
draws of `random.uniform` made explicit inputs. -/
def generate_iot_reading (now : Timestamp) (u1 u2 u3 : ℚ) : Reading :=
  { timestamp := now
    temperature := round2 (uniform 28 32 u1)
    humidity := round2 (uniform 70 95 u2)
    airflow := round2 (uniform 0.6 2.4 u3) }

/-- The text of one CSV cell, abstracted to its parse class (see the file
header). -/
inductive Cell where
  | dt (t : Timestamp)
  | dec (m : ℤ) (s : ℕ)
  | text (s : String)
  deriving DecidableEq

/-- The header `main.py` always writes: `df.to_csv` with the DataFrame's
column order. -/
def stdHeader : List String := ["timestamp", "temperature", "humidity", "airflow"]

/-- A CSV file: header row and data rows of cells. -/
structure CsvFile where
  header : List String
  rows : List (List Cell)
  deriving DecidableEq

/-- Parsing one cell as a float (pandas numeric conversion): only decimal
numerals succeed. -/
def cellFloat : Cell → Option ℚ
  | Cell.dec m s => some ((m : ℚ) / 10 ^ s)
  | _ => none

/-- Parsing one cell as a datetime (pandas `parse_dates` conversion). -/
def cellTime : Cell → Option Timestamp
  | Cell.dt t => some t
  | _ => none

/-- All-or-nothing conversion of a list, as pandas types a whole column. -/
def traverseOpt (p : α → Option β) : List α → Option (List β)
  | [] => some []
  | a :: t => (p a).bind (fun b => (traverseOpt p t).bind (fun bs => some (b :: bs)))

/-- One value of a loaded DataFrame: a converted number, a converted
datetime, or a cell kept verbatim because its column failed conversion. -/
inductive Value where
  | vnum (q : ℚ)
  | vtime (t : Timestamp)
  | raw (c : Cell)
  deriving DecidableEq

/-- A loaded DataFrame: header and typed columns (column-major, as pandas
stores it). -/
structure Frame where
  header : List String
  cols : List (List Value)
  deriving DecidableEq

/-- pandas typing of one column named `name`: the `timestamp` column is
converted by `parse_dates`, the others by numeric inference; a column in
which any cell fails to parse is kept as text, without error. -/
def typeColumn (name : String) (cells : List Cell) : List Value :=
  if name = "timestamp" then
    match traverseOpt cellTime cells with
    | some ts => ts.map Value.vtime
    | none => cells.map Value.raw
  else
    match traverseOpt cellFloat cells with
    | some qs => qs.map Value.vnum
    | none => cells.map Value.raw

/-- `pd.read_csv(DATA_FILE, parse_dates=["timestamp"])`: ragged rows raise
ParserError, a missing `timestamp` column raises ValueError (from
`parse_dates`), anything else loads with per-column all-or-nothing typing. -/
def read_csv (f : CsvFile) : Except String Frame :=
  if f.rows.any (fun row => row.length != f.header.length) then
    Except.error "ParserError"
  else if "timestamp" ∈ f.header then
    Except.ok
      { header := f.header
        cols := (List.range f.header.length).map (fun j =>
          typeColumn (f.header.getD j "") (f.rows.map (fun row => row.getD j (Cell.text "")))) }
  else
    Except.error "ValueError"

/-- `load_data` of `main.py`: read the CSV when the backing file exists,
otherwise an empty DataFrame with the four columns. -/
def load_data (file : Option CsvFile) : Except String Frame :=
  match file with
  | some f => read_csv f
  | none => Except.ok { header := stdHeader, cols := [[], [], [], []] }

/-- pandas' decimal rendering of a float, restricted to the values the
program produces (at most two decimal places after `round(…, 2)`): an
integer or one-decimal value prints with one digit after the point (the
float repr of 29.0 is "29.0"), a genuine two-decimal value with two. -/
def renderQ (q : ℚ) : Cell :=
  if (q * 10).den = 1 then Cell.dec (q * 10).num 1 else Cell.dec (q * 100).num 2

/-- A value with at most two decimal places: the form every numeric field
takes after the generator's `round(…, 2)`. -/
def TwoDecimal (q : ℚ) : Prop := ∃ z : ℤ, q = (z : ℚ) / 100

/-- The CSV text of one reading's row, in the DataFrame's column order. -/
def rowOf (r : Reading) : List Cell :=
  [Cell.dt r.timestamp, renderQ r.temperature, renderQ r.humidity, renderQ r.airflow]

/-- The CSV text `df.to_csv(index=False)` produces for a log of readings. -/
def toCsv (log : List Reading) : CsvFile :=
  { header := stdHeader
    rows := log.map rowOf }

/-- `save_data` of `main.py`: `df.to_csv(DATA_FILE, index=False)` replaces
the backing file's previous contents wholesale. -/
def save_data (df : List Reading) (_prevFile : Option CsvFile) : Option CsvFile :=
  some (toCsv df)

/-- The DataFrame a log denotes after a successful round trip through the
CSV: a datetime column and three numeric columns. -/
def Frame.ofLog (log : List Reading) : Frame :=
  { header := stdHeader
    cols := [log.map (fun r => Value.vtime r.timestamp),
             log.map (fun r => Value.vnum r.temperature),
             log.map (fun r => Value.vnum r.humidity),
             log.map (fun r => Value.vnum r.airflow)] }

/-- Reading a converted datetime value back. -/
def valueTime : Value → Option Timestamp
  | Value.vtime t => some t
  | _ => none

/-- Reading a converted numeric value back. -/
def valueNum : Value → Option ℚ
  | Value.vnum q => some q
  | _ => none

/-- Zipping equal-length columns back into readings. -/
def zipReadings : List Timestamp → List ℚ → List ℚ → List ℚ → Option (List Reading)
  | [], [], [], [] => some []
  | t :: ts, a :: as, b :: bs, c :: cs =>
    (zipReadings ts as bs cs).map (fun rest => ⟨t, a, b, c⟩ :: rest)
  | _, _, _, _ => none

/-- A loaded frame seen as a log of readings, when every column converted. -/
def frameToLog (fr : Frame) : Option (List Reading) :=
  match fr.cols with
  | [c0, c1, c2, c3] =>
    match traverseOpt valueTime c0, traverseOpt valueNum c1,
          traverseOpt valueNum c2, traverseOpt valueNum c3 with
    | some ts, some temps, some hums, some airs => zipReadings ts temps hums airs
    | _, _, _, _ => none
  | _ => none

/-- `data["timestamp"].dt.date`: the calendar day of a reading. -/
def dateOf (r : Reading) : ℤ := r.timestamp.day

/-- The boolean mask of `main.py` line 118 applied with `.loc`:
`(dt.date >= start_date) & (dt.date <= end_date)`. -/
def filterByDates (data : List Reading) (start_date end_date : ℤ) : List Reading :=
  data.filter (fun r => decide (start_date ≤ dateOf r) && decide (dateOf r ≤ end_date))

/-- Lines 116–119 of `main.py`: the mask is applied only when the data is
non-empty, a date range was offered, and the widget returned exactly two
dates; otherwise the data passes through unfiltered. -/
def applyDateFilter (data : List Reading) (date_range : Option (List ℤ)) : List Reading :=
  match date_range with
  | none => data
  | some dr =>
    if data ≠ [] ∧ dr.length = 2 then
      filterByDates data (dr.getD 0 0) (dr.getD 1 0)
    else data

/-- Lines 101–108 of `main.py`: while the simulation runs, append the fresh
reading to the session log, then attempt to persist.  `saveOk` models
whether the write to disk succeeds; on failure (PersistenceError) the file
keeps its old contents and the exception surfaces after the append. -/
def tick (run_sim : Bool) (newRow : Reading) (saveOk : Bool)
    (st : List Reading × Option CsvFile) : List Reading × Option CsvFile :=
  if run_sim then
    let newLog := st.1 ++ [newRow]
    (newLog, if saveOk then save_data newLog st.2 else st.2)
  else st

/-- A sequence of running-state ingest ticks, each with its generated
reading and persistence outcome. -/
def runTicks (inputs : List (Reading × Bool)) (st : List Reading × Option CsvFile) :
    List Reading × Option CsvFile :=
  inputs.foldl (fun s i => tick true i.1 i.2 s) st

/-- The framework-held state across reruns: the `st.session_state` cache of
the log (absent before the first run) and the backing file. -/
structure AppState where
  session : Option (List Reading)
  file : Option CsvFile
  deriving DecidableEq

/-- What the display section renders: the "no data" message, or the metric
row (latest reading), the table, and the export payload. -/
inductive Display where
  | noData
  | dashboard (latest : Reading) (table : List Reading) (download : CsvFile)
  deriving DecidableEq

/-- `sort_values("timestamp", ascending=False)`: is `a`'s timestamp at or
after `b`'s? -/
def tsDescBool (a b : Reading) : Bool :=
  decide (b.timestamp.day < a.timestamp.day) ||
    (decide (b.timestamp.day = a.timestamp.day) && decide (b.timestamp.usec ≤ a.timestamp.usec))

/-- Insertion step of the descending-timestamp sort. -/
def insertDesc (r : Reading) : List Reading → List Reading
  | [] => [r]
  | a :: t => if tsDescBool r a then r :: a :: t else a :: insertDesc r t

/-- The table's presentation-only re-sort, timestamp descending. -/
def sortDesc : List Reading → List Reading
  | [] => []
  | a :: t => insertDesc a (sortDesc t)

/-- Lines 124–170 of `main.py`: an empty view shows the "no data" notice;
otherwise the latest reading (`data.iloc[-1]`), the descending table, and
the filtered CSV export are rendered. -/
def renderDisplay (view : List Reading) : Display :=
  match view.getLast? with
  | none => Display.noData
  | some latest => Display.dashboard latest (sortDesc view) (toCsv view)

/-- One Streamlit rerun of `main.py`, lines 62–170: initialise the session
log from disk on the first run, offer the date widget only when the data is
non-empty (computed before the tick), run the ingest tick when the checkbox
is on, filter, and render.  `none` models a rerun that dies in the load
(unparseable or undecodable backing file). -/
def scriptRun (run_sim : Bool) (dateSel : List ℤ) (newRow : Reading) (s : AppState) :
    Option (AppState × Display) :=
  let init : Option (List Reading) :=
    match s.session with
    | some l => some l
    | none =>
      match load_data s.file with
      | Except.ok fr => frameToLog fr
      | Except.error _ => none
  match init with
  | none => none
  | some log0 =>
    let dateRange : Option (List ℤ) := if log0 = [] then none else some dateSel
    let log1 := if run_sim then log0 ++ [newRow] else log0
    let file1 := if run_sim then save_data log1 s.file else s.file
    let view := applyDateFilter log1 dateRange
    some ({ session := some log1, file := file1 }, renderDisplay view)

/-- A sequence of reruns with the simulation checkbox off. -/
def runsPaused (inputs : List (List ℤ × Reading)) (s : AppState) : Option AppState :=
  match inputs with
  | [] => some s
  | i :: t =>
    match scriptRun false i.1 i.2 s with
    | some (s', _) => runsPaused t s'
    | none => none

/-- A fixed sample timestamp for concrete evaluations. -/
def t0 : Timestamp := ⟨0, 0⟩

/-- A backing file whose single row has the non-numeric temperature text
"abc" — the corruption scenario of the spec. -/
def badFile : CsvFile :=
  { header := stdHeader
    rows := [[Cell.dt t0, Cell.text "abc", Cell.dec 800 1, Cell.dec 10 1]] }

/-! ### Rounding lemmas -/

theorem roundHalfEven_cases (q : ℚ) :
    roundHalfEven q = ⌊q⌋ ∨ (roundHalfEven q = ⌊q⌋ + 1 ∧ (1/2 : ℚ) ≤ q - ⌊q⌋) := by
  unfold roundHalfEven
  split
  · exact Or.inl rfl
  · rename_i h1
    split
    · rename_i h2
      exact Or.inr ⟨rfl, le_of_lt h2⟩
    · split
      · exact Or.inl rfl
      · exact Or.inr ⟨rfl, not_lt.mp h1⟩

theorem le_roundHalfEven (n : ℤ) (q : ℚ) (h : (n : ℚ) ≤ q) : n ≤ roundHalfEven q := by
  have hf : n ≤ ⌊q⌋ := Int.le_floor.mpr h
  rcases roundHalfEven_cases q with h1 | ⟨h1, _⟩ <;> omega

theorem roundHalfEven_le (n : ℤ) (q : ℚ) (h : q ≤ (n : ℚ)) : roundHalfEven q ≤ n := by
  have hf : ⌊q⌋ ≤ n := by
    have := Int.floor_le_floor h
    simpa using this
  rcases roundHalfEven_cases q with h1 | ⟨h1, h2⟩
  · omega
  · have hq : (⌊q⌋ : ℚ) < q := by linarith
    have hn : (⌊q⌋ : ℚ) < (n : ℚ) := lt_of_lt_of_le hq h
    have : ⌊q⌋ < n := by exact_mod_cast hn
    omega

theorem le_round2 (k : ℤ) (q : ℚ) (h : (k : ℚ) ≤ q * 100) : (k : ℚ) / 100 ≤ round2 q := by
  have g : (k : ℚ) ≤ (roundHalfEven (q * 100) : ℚ) := by
    exact_mod_cast le_roundHalfEven k (q * 100) h
  unfold round2
  gcongr

theorem round2_le (m : ℤ) (q : ℚ) (h : q * 100 ≤ (m : ℚ)) : round2 q ≤ (m : ℚ) / 100 := by
  have g : (roundHalfEven (q * 100) : ℚ) ≤ (m : ℚ) := by
    exact_mod_cast roundHalfEven_le m (q * 100) h
  unfold round2
  gcongr

/-! ### C3: generator bounds -/

/-- C3: every Reading produced by `generate_iot_reading` satisfies
`28.0 ≤ temperature ≤ 32.0`, `70.0 ≤ humidity ≤ 95.0` and
`0.6 ≤ airflow ≤ 2.4`, and each value is an integer number of hundredths
(rounded to exactly 2 decimal places).  The generator is a total function of
the wall clock and the three uniform draws, so generation never fails. -/
theorem generate_reading_bounds (now : Timestamp) (u1 u2 u3 : ℚ)
    (h1a : 0 ≤ u1) (h1b : u1 ≤ 1) (h2a : 0 ≤ u2) (h2b : u2 ≤ 1)
    (h3a : 0 ≤ u3) (h3b : u3 ≤ 1) :
    (28 ≤ (generate_iot_reading now u1 u2 u3).temperature ∧
      (generate_iot_reading now u1 u2 u3).temperature ≤ 32) ∧
    (70 ≤ (generate_iot_reading now u1 u2 u3).humidity ∧
      (generate_iot_reading now u1 u2 u3).humidity ≤ 95) ∧
    ((0.6 : ℚ) ≤ (generate_iot_reading now u1 u2 u3).airflow ∧
      (generate_iot_reading now u1 u2 u3).airflow ≤ (2.4 : ℚ)) ∧
    (∃ k : ℤ, (generate_iot_reading now u1 u2 u3).temperature = (k : ℚ) / 100) ∧
    (∃ k : ℤ, (generate_iot_reading now u1 u2 u3).humidity = (k : ℚ) / 100) ∧
    (∃ k : ℤ, (generate_iot_reading now u1 u2 u3).airflow = (k : ℚ) / 100) := by
  have t1 : ((2800 : ℤ) : ℚ) ≤ uniform 28 32 u1 * 100 := by
    unfold uniform; push_cast; nlinarith
  have t2 : uniform 28 32 u1 * 100 ≤ ((3200 : ℤ) : ℚ) := by
    unfold uniform; push_cast; nlinarith
  have m1 : ((7000 : ℤ) : ℚ) ≤ uniform 70 95 u2 * 100 := by
    unfold uniform; push_cast; nlinarith
  have m2 : uniform 70 95 u2 * 100 ≤ ((9500 : ℤ) : ℚ) := by
    unfold uniform; push_cast; nlinarith
  have a1 : ((60 : ℤ) : ℚ) ≤ uniform 0.6 2.4 u3 * 100 := by
    unfold uniform; push_cast; nlinarith
  have a2 : uniform 0.6 2.4 u3 * 100 ≤ ((240 : ℤ) : ℚ) := by
    unfold uniform; push_cast; nlinarith
  have g1 := le_round2 _ _ t1
  have g2 := round2_le _ _ t2
  have g3 := le_round2 _ _ m1
  have g4 := round2_le _ _ m2
  have g5 := le_round2 _ _ a1
  have g6 := round2_le _ _ a2
  refine ⟨⟨?_, ?_⟩, ⟨?_, ?_⟩, ⟨?_, ?_⟩, ?_, ?_, ?_⟩
  · calc (28 : ℚ) = ((2800 : ℤ) : ℚ) / 100 := by norm_num
      _ ≤ round2 (uniform 28 32 u1) := g1
  · calc (generate_iot_reading now u1 u2 u3).temperature
        ≤ ((3200 : ℤ) : ℚ) / 100 := g2
      _ = 32 := by norm_num
  · calc (70 : ℚ) = ((7000 : ℤ) : ℚ) / 100 := by norm_num
      _ ≤ round2 (uniform 70 95 u2) := g3
  · calc (generate_iot_reading now u1 u2 u3).humidity
        ≤ ((9500 : ℤ) : ℚ) / 100 := g4
      _ = 95 := by norm_num
  · calc (0.6 : ℚ) = ((60 : ℤ) : ℚ) / 100 := by norm_num
      _ ≤ round2 (uniform 0.6 2.4 u3) := g5
  · calc (generate_iot_reading now u1 u2 u3).airflow
        ≤ ((240 : ℤ) : ℚ) / 100 := g6
      _ = (2.4 : ℚ) := by norm_num
  · exact ⟨roundHalfEven (uniform 28 32 u1 * 100), rfl⟩
  · exact ⟨roundHalfEven (uniform 70 95 u2 * 100), rfl⟩
  · exact ⟨roundHalfEven (uniform 0.6 2.4 u3 * 100), rfl⟩

/-- Witness for C3: the bounds hold at a concrete clock value and concrete
uniform draws. -/
theorem generate_reading_bounds_witness :
    ((0 : ℚ) ≤ 1/2 ∧ (1/2 : ℚ) ≤ 1) ∧
    ((28 ≤ (generate_iot_reading t0 (1/2) (1/2) (1/2)).temperature ∧
      (generate_iot_reading t0 (1/2) (1/2) (1/2)).temperature ≤ 32) ∧
    (70 ≤ (generate_iot_reading t0 (1/2) (1/2) (1/2)).humidity ∧
      (generate_iot_reading t0 (1/2) (1/2) (1/2)).humidity ≤ 95) ∧
    ((0.6 : ℚ) ≤ (generate_iot_reading t0 (1/2) (1/2) (1/2)).airflow ∧
      (generate_iot_reading t0 (1/2) (1/2) (1/2)).airflow ≤ (2.4 : ℚ)) ∧
    (∃ k : ℤ, (generate_iot_reading t0 (1/2) (1/2) (1/2)).temperature = (k : ℚ) / 100) ∧
    (∃ k : ℤ, (generate_iot_reading t0 (1/2) (1/2) (1/2)).humidity = (k : ℚ) / 100) ∧
    (∃ k : ℤ, (generate_iot_reading t0 (1/2) (1/2) (1/2)).airflow = (k : ℚ) / 100)) :=
  ⟨⟨by norm_num, by norm_num⟩,
    generate_reading_bounds t0 (1/2) (1/2) (1/2)
      (by norm_num) (by norm_num) (by norm_num) (by norm_num) (by norm_num) (by norm_num)⟩

/-! ### Helper lemmas about column conversion -/

theorem traverseOpt_length_eq (p : α → Option β) (l : List α) :
    ∀ v, traverseOpt p l = some v → v.length = l.length := by
  induction l with
  | nil =>
    intro v h
    rw [traverseOpt] at h
    cases h
    rfl
  | cons a t ih =>
    intro v h
    rw [traverseOpt] at h
    rcases Option.bind_eq_some.mp h with ⟨b, hb, h2⟩
    rcases Option.bind_eq_some.mp h2 with ⟨bs, hbs, h3⟩
    cases h3
    simp [ih bs hbs]

theorem traverseOpt_map (p : β → Option γ) (f : α → β) (g : α → γ) (l : List α)
    (h : ∀ a ∈ l, p (f a) = some (g a)) :
    traverseOpt p (l.map f) = some (l.map g) := by
  induction l with
  | nil => rfl
  | cons a t ih =>
    rw [List.map_cons, traverseOpt, h a (by simp)]
    simp only [Option.some_bind]
    rw [ih (fun x hx => h x (by simp [hx]))]
    rfl

theorem typeColumn_length (name : String) (cells : List Cell) :
    (typeColumn name cells).length = cells.length := by
  rw [typeColumn]
  split
  · cases htt : traverseOpt cellTime cells with
    | none => simp
    | some ts => simpa using traverseOpt_length_eq cellTime cells ts htt
  · cases htt : traverseOpt cellFloat cells with
    | none => simp
    | some qs => simpa using traverseOpt_length_eq cellFloat cells qs htt

/-! ### C1: what load accepts and what it rejects -/

/-- C1 counterexample: the backing file `badFile` exists and has a
non-numeric temperature field, yet `load_data` succeeds — it returns the
full one-row frame with the temperature column kept as unparsed text
instead of failing with any error.  There is no `CorruptDataError` path in
the code. -/
theorem load_data_accepts_nonnumeric_temperature :
    load_data (some badFile) =
      Except.ok { header := stdHeader,
                  cols := [[Value.vtime t0], [Value.raw (Cell.text "abc")],
                           [Value.vnum 80], [Value.vnum 1]] } ∧
    (∀ row ∈ badFile.rows, cellFloat (row.getD 1 (Cell.text "")) = none) := by
  constructor
  · have h80 : ((800 : ℤ) : ℚ) / 10 ^ (1 : ℕ) = 80 := by norm_num
    have h1 : ((10 : ℤ) : ℚ) / 10 ^ (1 : ℕ) = 1 := by norm_num
    have base : load_data (some badFile) =
        Except.ok { header := stdHeader,
                    cols := [[Value.vtime t0], [Value.raw (Cell.text "abc")],
                             [Value.vnum (((800 : ℤ) : ℚ) / 10 ^ (1 : ℕ))],
                             [Value.vnum (((10 : ℤ) : ℚ) / 10 ^ (1 : ℕ))]] } := rfl
    rw [base, h80, h1]
  · intro row hrow
    simp only [badFile, List.mem_singleton] at hrow
    subst hrow
    rfl

/-- C1 (amended): `load_data` raises only for a file whose rows' widths
disagree with the header or whose header lacks the `timestamp` column; any
file of full-width rows — malformed field contents included — loads
successfully, every row retained (nothing truncated), with unparseable
columns silently kept as text. -/
theorem load_data_wellShaped_ok (f : CsvFile)
    (hh : f.header = stdHeader) (hw : ∀ row ∈ f.rows, row.length = 4) :
    ∃ g : Frame, load_data (some f) = Except.ok g ∧ g.header = stdHeader ∧
      g.cols.length = 4 ∧ ∀ c ∈ g.cols, c.length = f.rows.length := by
  have hany : (f.rows.any fun row => row.length != f.header.length) = false := by
    rw [List.any_eq_false]
    intro row hrow
    simp [hw row hrow, hh, stdHeader]
  have hmem : "timestamp" ∈ f.header := by rw [hh]; simp [stdHeader]
  have base : load_data (some f) = Except.ok
      { header := f.header
        cols := (List.range f.header.length).map (fun j =>
          typeColumn (f.header.getD j "") (f.rows.map (fun row => row.getD j (Cell.text "")))) } := by
    simp only [load_data, read_csv, hany, Bool.false_eq_true, if_false, if_pos hmem]
  refine ⟨_, base, hh, ?_, ?_⟩
  · simp [hh, stdHeader]
  · intro c hc
    rcases List.mem_map.mp hc with ⟨j, hj, rfl⟩
    rw [typeColumn_length]
    simp

/-- Witness for the amended C1 at the concrete corrupt file. -/
theorem load_data_wellShaped_ok_witness :
    badFile.header = stdHeader ∧ (∀ row ∈ badFile.rows, row.length = 4) ∧
    (∃ g : Frame, load_data (some badFile) = Except.ok g ∧ g.header = stdHeader ∧
      g.cols.length = 4 ∧ ∀ c ∈ g.cols, c.length = badFile.rows.length) :=
  ⟨rfl, by decide, load_data_wellShaped_ok badFile rfl (by decide)⟩

/-! ### C2, C8: serialization and its inverse -/

/-- pandas' decimal text for a two-decimal value parses back to exactly that
value. -/
theorem cellFloat_renderQ (q : ℚ) (h : TwoDecimal q) : cellFloat (renderQ q) = some q := by
  obtain ⟨z, rfl⟩ := h
  rw [renderQ]
  split
  · rename_i h10
    rw [cellFloat]
    congr 1
    have hnum : (((z : ℚ) / 100 * 10).num : ℚ) = (z : ℚ) / 100 * 10 := by
      have hq := Rat.num_div_den ((z : ℚ) / 100 * 10)
      rw [h10] at hq
      simpa using hq
    rw [hnum, pow_one]
    field_simp
    ring
  · rw [cellFloat]
    congr 1
    have h100 : (z : ℚ) / 100 * 100 = (z : ℚ) := by field_simp
    have hnum : ((z : ℚ) / 100 * 100).num = z := by rw [h100, Rat.num_intCast]
    rw [hnum]
    norm_num

/-- The scale of a rendered two-decimal value never exceeds two digits after
the point. -/
theorem renderQ_scale (q : ℚ) : ∃ m : ℤ, ∃ s : ℕ, renderQ q = Cell.dec m s ∧ s ≤ 2 := by
  rw [renderQ]
  split
  · exact ⟨_, 1, rfl, by norm_num⟩
  · exact ⟨_, 2, rfl, le_refl 2⟩

theorem col_ts (log : List Reading) :
    typeColumn "timestamp" (log.map (fun r => (rowOf r).getD 0 (Cell.text ""))) =
      log.map (fun r => Value.vtime r.timestamp) := by
  rw [typeColumn, if_pos rfl,
    traverseOpt_map cellTime (fun r => (rowOf r).getD 0 (Cell.text ""))
      (fun r => r.timestamp) log (fun a _ => rfl)]
  show (log.map (fun r => r.timestamp)).map Value.vtime = _
  rw [List.map_map]
  rfl

theorem col_temp (log : List Reading) (h2 : ∀ r ∈ log, TwoDecimal r.temperature) :
    typeColumn "temperature" (log.map (fun r => (rowOf r).getD 1 (Cell.text ""))) =
      log.map (fun r => Value.vnum r.temperature) := by
  rw [typeColumn, if_neg (by decide),
    traverseOpt_map cellFloat (fun r => (rowOf r).getD 1 (Cell.text ""))
      (fun r => r.temperature) log
      (fun a ha => cellFloat_renderQ a.temperature (h2 a ha))]
  show (log.map (fun r => r.temperature)).map Value.vnum = _
  rw [List.map_map]
  rfl

theorem col_hum (log : List Reading) (h2 : ∀ r ∈ log, TwoDecimal r.humidity) :
    typeColumn "humidity" (log.map (fun r => (rowOf r).getD 2 (Cell.text ""))) =
      log.map (fun r => Value.vnum r.humidity) := by
  rw [typeColumn, if_neg (by decide),
    traverseOpt_map cellFloat (fun r => (rowOf r).getD 2 (Cell.text ""))
      (fun r => r.humidity) log
      (fun a ha => cellFloat_renderQ a.humidity (h2 a ha))]
  show (log.map (fun r => r.humidity)).map Value.vnum = _
  rw [List.map_map]
  rfl

theorem col_air (log : List Reading) (h2 : ∀ r ∈ log, TwoDecimal r.airflow) :
    typeColumn "airflow" (log.map (fun r => (rowOf r).getD 3 (Cell.text ""))) =
      log.map (fun r => Value.vnum r.airflow) := by
  rw [typeColumn, if_neg (by decide),
    traverseOpt_map cellFloat (fun r => (rowOf r).getD 3 (Cell.text ""))
      (fun r => r.airflow) log
      (fun a ha => cellFloat_renderQ a.airflow (h2 a ha))]
  show (log.map (fun r => r.airflow)).map Value.vnum = _
  rw [List.map_map]
  rfl

theorem read_csv_toCsv (log : List Reading)
    (h2 : ∀ r ∈ log, TwoDecimal r.temperature ∧ TwoDecimal r.humidity ∧
      TwoDecimal r.airflow) :
    read_csv (toCsv log) = Except.ok (Frame.ofLog log) := by
  have hany : ((toCsv log).rows.any fun row => row.length != (toCsv log).header.length) = false := by
    rw [List.any_eq_false]
    intro row hrow
    simp only [toCsv] at hrow
    rcases List.mem_map.mp hrow with ⟨r, hr, rfl⟩
    simp [toCsv, stdHeader, rowOf]
  have hmem : "timestamp" ∈ (toCsv log).header := by simp [toCsv, stdHeader]
  rw [read_csv, if_neg (by rw [hany]; simp), if_pos hmem]
  have hrange : List.range (toCsv log).header.length = [0, 1, 2, 3] := rfl
  rw [hrange]
  simp only [List.map_cons, List.map_nil]
  have e0 : (toCsv log).rows.map (fun row => row.getD 0 (Cell.text "")) =
      log.map (fun r => (rowOf r).getD 0 (Cell.text "")) := by
    simp only [toCsv]
    rw [List.map_map]
    rfl
  have e1 : (toCsv log).rows.map (fun row => row.getD 1 (Cell.text "")) =
      log.map (fun r => (rowOf r).getD 1 (Cell.text "")) := by
    simp only [toCsv]
    rw [List.map_map]
    rfl
  have e2 : (toCsv log).rows.map (fun row => row.getD 2 (Cell.text "")) =
      log.map (fun r => (rowOf r).getD 2 (Cell.text "")) := by
    simp only [toCsv]
    rw [List.map_map]
    rfl
  have e3 : (toCsv log).rows.map (fun row => row.getD 3 (Cell.text "")) =
      log.map (fun r => (rowOf r).getD 3 (Cell.text "")) := by
    simp only [toCsv]
    rw [List.map_map]
    rfl
  have n0 : (toCsv log).header.getD 0 "" = "timestamp" := rfl
  have n1 : (toCsv log).header.getD 1 "" = "temperature" := rfl
  have n2 : (toCsv log).header.getD 2 "" = "humidity" := rfl
  have n3 : (toCsv log).header.getD 3 "" = "airflow" := rfl
  rw [n0, n1, n2, n3, e0, e1, e2, e3,
    col_ts log, col_temp log (fun r hr => (h2 r hr).1),
    col_hum log (fun r hr => (h2 r hr).2.1), col_air log (fun r hr => (h2 r hr).2.2)]
  rfl

/-- C2: for every non-empty log of two-decimal readings (field-for-field the
values the program rounds), `load(save(log))` reproduces the log exactly:
the reloaded frame is the embedding of the log, its timestamp column the
parsed date-times and its three numeric columns the very same rounded
values, in the same order. -/
theorem load_save_roundtrip (log : List Reading) (prev : Option CsvFile)
    (hne : log ≠ [])
    (h2 : ∀ r ∈ log, TwoDecimal r.temperature ∧ TwoDecimal r.humidity ∧
      TwoDecimal r.airflow) :
    load_data (save_data log prev) = Except.ok (Frame.ofLog log) ∧
    (Frame.ofLog log).cols = [log.map (fun r => Value.vtime r.timestamp),
      log.map (fun r => Value.vnum r.temperature),
      log.map (fun r => Value.vnum r.humidity),
      log.map (fun r => Value.vnum r.airflow)] := by
  refine ⟨?_, rfl⟩
  show read_csv (toCsv log) = Except.ok (Frame.ofLog log)
  exact read_csv_toCsv log h2

/-- Witness for C2 at a one-entry log. -/
theorem load_save_roundtrip_witness :
    (([⟨t0, 30, 80, 1⟩] : List Reading) ≠ []) ∧
    load_data (save_data [⟨t0, 30, 80, 1⟩] none) =
      Except.ok (Frame.ofLog [⟨t0, 30, 80, 1⟩]) :=
  ⟨by simp,
    (load_save_roundtrip [⟨t0, 30, 80, 1⟩] none (by simp)
      (fun r hr => by
        simp only [List.mem_singleton] at hr
        subst hr
        exact ⟨⟨3000, by norm_num⟩, ⟨8000, by norm_num⟩, ⟨100, by norm_num⟩⟩)).1⟩

/-- C8: `save_data` replaces the backing file, whatever it held before, with
the CSV of the whole log: the exact four-name header in order, one row per
reading in log order, the timestamp cell in parseable datetime text, and
each numeric field as decimal text of at most two places that denotes
exactly the stored (rounded) value. -/
theorem save_data_format (log : List Reading) (prev : Option CsvFile)
    (h2 : ∀ r ∈ log, TwoDecimal r.temperature ∧ TwoDecimal r.humidity ∧
      TwoDecimal r.airflow) :
    save_data log prev = some (toCsv log) ∧
    (toCsv log).header = ["timestamp", "temperature", "humidity", "airflow"] ∧
    (toCsv log).rows = log.map (fun r => [Cell.dt r.timestamp, renderQ r.temperature,
      renderQ r.humidity, renderQ r.airflow]) ∧
    (∀ r ∈ log,
      cellTime (Cell.dt r.timestamp) = some r.timestamp ∧
      cellFloat (renderQ r.temperature) = some r.temperature ∧
      cellFloat (renderQ r.humidity) = some r.humidity ∧
      cellFloat (renderQ r.airflow) = some r.airflow ∧
      (∃ m : ℤ, ∃ s : ℕ, renderQ r.temperature = Cell.dec m s ∧ s ≤ 2) ∧
      (∃ m : ℤ, ∃ s : ℕ, renderQ r.humidity = Cell.dec m s ∧ s ≤ 2) ∧
      (∃ m : ℤ, ∃ s : ℕ, renderQ r.airflow = Cell.dec m s ∧ s ≤ 2)) :=
  ⟨rfl, rfl, rfl, fun r hr =>
    ⟨rfl, cellFloat_renderQ r.temperature (h2 r hr).1,
      cellFloat_renderQ r.humidity (h2 r hr).2.1,
      cellFloat_renderQ r.airflow (h2 r hr).2.2,
      renderQ_scale r.temperature, renderQ_scale r.humidity, renderQ_scale r.airflow⟩⟩

/-- Witness for C8 at a one-entry log over a pre-existing file. -/
theorem save_data_format_witness :
    save_data [⟨t0, 30, 80, 1⟩] (some badFile) = some (toCsv [⟨t0, 30, 80, 1⟩]) ∧
    (toCsv [⟨t0, 30, 80, 1⟩]).header = ["timestamp", "temperature", "humidity", "airflow"] :=
  have h := save_data_format [⟨t0, 30, 80, 1⟩] (some badFile)
    (fun r hr => by
      simp only [List.mem_singleton] at hr
      subst hr
      exact ⟨⟨3000, by norm_num⟩, ⟨8000, by norm_num⟩, ⟨100, by norm_num⟩⟩)
  ⟨h.1, h.2.1⟩

/-! ### C4, C5: the date filter -/

/-- C4: for `start_date ≤ end_date` the date mask selects exactly the
readings whose calendar day lies in the inclusive window, as an
order-preserving subsequence of the log (so the view keeps insertion order
and is never re-sorted): it is a sublist of the log that contains a reading
as many times as the log does when its day is in range, and never
otherwise. -/
theorem filterByDates_spec (log : List Reading) (s e : ℤ) (hse : s ≤ e) :
    (filterByDates log s e).Sublist log ∧
    (∀ r : Reading, (filterByDates log s e).count r =
      if s ≤ dateOf r ∧ dateOf r ≤ e then log.count r else 0) := by
  refine ⟨List.filter_sublist log, fun r => ?_⟩
  by_cases h : s ≤ dateOf r ∧ dateOf r ≤ e
  · rw [if_pos h]
    exact List.count_filter (by simp [h.1, h.2])
  · rw [if_neg h, List.count_eq_zero]
    intro hmem
    have hm := List.mem_filter.mp hmem
    have := hm.2
    simp only [Bool.and_eq_true, decide_eq_true_eq] at this
    exact h this

/-- Witness for C4 at a two-entry log and the window [0, 3]. -/
theorem filterByDates_spec_witness :
    (0 : ℤ) ≤ 3 ∧
    ((filterByDates [⟨⟨0, 0⟩, 30, 80, 1⟩, ⟨⟨5, 0⟩, 29, 75, 2⟩] 0 3).Sublist
        [⟨⟨0, 0⟩, 30, 80, 1⟩, ⟨⟨5, 0⟩, 29, 75, 2⟩] ∧
      (∀ r : Reading,
        (filterByDates [⟨⟨0, 0⟩, 30, 80, 1⟩, ⟨⟨5, 0⟩, 29, 75, 2⟩] 0 3).count r =
          if 0 ≤ dateOf r ∧ dateOf r ≤ 3 then
            ([⟨⟨0, 0⟩, 30, 80, 1⟩, ⟨⟨5, 0⟩, 29, 75, 2⟩] : List Reading).count r
          else 0)) :=
  ⟨by decide, filterByDates_spec [⟨⟨0, 0⟩, 30, 80, 1⟩, ⟨⟨5, 0⟩, 29, 75, 2⟩] 0 3 (by decide)⟩

/-- C5: an inverted window (`start_date > end_date`) yields the empty view
rather than an error, and filtering the empty log yields the empty view for
every pair of bounds. -/
theorem filterByDates_empty (log : List Reading) (s e : ℤ) (h : e < s) :
    filterByDates log s e = [] ∧ ∀ s' e' : ℤ, filterByDates [] s' e' = [] := by
  refine ⟨?_, fun s' e' => rfl⟩
  rw [filterByDates, List.filter_eq_nil_iff]
  intro r _
  simp only [Bool.and_eq_true, decide_eq_true_eq]
  rintro ⟨h1, h2⟩
  omega

/-- Witness for C5 with the inverted window [5, 2]. -/
theorem filterByDates_empty_witness :
    (2 : ℤ) < 5 ∧
    (filterByDates [⟨⟨3, 0⟩, 30, 80, 1⟩] 5 2 = [] ∧
      ∀ s' e' : ℤ, filterByDates [] s' e' = []) :=
  ⟨by decide, filterByDates_empty [⟨⟨3, 0⟩, 30, 80, 1⟩] 5 2 (by decide)⟩

/-! ### C6, C7: the ingest loop -/

/-- C6: after N running-state ingest ticks the in-memory log has exactly N
more entries, the new readings appended in tick order, and the previous log
survives untouched as the initial segment of the new one — nothing is
mutated or removed (append-only). -/
theorem runTicks_appends (inputs : List (Reading × Bool)) (log : List Reading)
    (file : Option CsvFile) :
    (runTicks inputs (log, file)).1 = log ++ inputs.map Prod.fst ∧
    (runTicks inputs (log, file)).1.length = log.length + inputs.length ∧
    (runTicks inputs (log, file)).1.take log.length = log := by
  have main : ∀ (ins : List (Reading × Bool)) (l : List Reading) (f : Option CsvFile),
      (runTicks ins (l, f)).1 = l ++ ins.map Prod.fst := by
    intro ins
    induction ins with
    | nil => intro l f; simp [runTicks]
    | cons i t ih =>
      intro l f
      have hstep : runTicks (i :: t) (l, f) = runTicks t (tick true i.1 i.2 (l, f)) := by
        simp [runTicks, List.foldl_cons]
      have ht : tick true i.1 i.2 (l, f) =
          (l ++ [i.1], if i.2 then save_data (l ++ [i.1]) f else f) := by
        simp [tick]
      rw [hstep, ht, ih]
      simp
  refine ⟨main inputs log file, ?_, ?_⟩
  · rw [main inputs log file]; simp
  · rw [main inputs log file]; exact List.take_left log _

/-- C7: a running tick appends the new reading to the in-memory log before
the save is attempted, so the append stands whether or not the save
succeeds; a failed save leaves the backing file as it was while the log
keeps the new reading, and the next tick appends on top regardless. -/
theorem tick_append_before_save (log : List Reading) (file : Option CsvFile)
    (r r2 : Reading) (saveOk saveOk2 : Bool) :
    (tick true r saveOk (log, file)).1 = log ++ [r] ∧
    (tick true r false (log, file)).2 = file ∧
    (tick true r2 saveOk2 (tick true r false (log, file))).1 = log ++ [r, r2] := by
  refine ⟨rfl, rfl, ?_⟩
  simp [tick]

/-! ### C9, C10: whole-rerun behaviour -/

theorem runsPaused_steady (ins : List (List ℤ × Reading)) :
    runsPaused ins ⟨some [], none⟩ = some ⟨some [], none⟩ := by
  induction ins with
  | nil => rfl
  | cons i t ih =>
    show runsPaused t ⟨some [], none⟩ = some ⟨some [], none⟩
    exact ih

/-- C9: starting from an empty log, no backing file and the Paused state,
every rerun shows the "no data" notice, appends nothing, and creates no
backing file — over any number of paused reruns the state stays exactly
(empty session log, no file).  The first Running-state tick is what first
appends a reading and creates the file. -/
theorem paused_no_effect :
    (∀ (dateSel : List ℤ) (newRow : Reading),
      scriptRun false dateSel newRow ⟨none, none⟩ =
        some (⟨some [], none⟩, Display.noData)) ∧
    (∀ (dateSel : List ℤ) (newRow : Reading),
      scriptRun false dateSel newRow ⟨some [], none⟩ =
        some (⟨some [], none⟩, Display.noData)) ∧
    (∀ inputs : List (List ℤ × Reading),
      runsPaused inputs ⟨some [], none⟩ = some ⟨some [], none⟩) ∧
    (∀ (dateSel : List ℤ) (newRow : Reading),
      scriptRun true dateSel newRow ⟨some [], none⟩ =
        some (⟨some [newRow], some (toCsv [newRow])⟩,
          Display.dashboard newRow [newRow] (toCsv [newRow]))) :=
  ⟨fun _ _ => rfl, fun _ _ => rfl, fun ins => runsPaused_steady ins, fun _ _ => rfl⟩

/-- C10: when the date widget returns fewer than two endpoints, the filter
step is skipped entirely and the whole display pipeline — latest-reading
metrics, table and export — is computed from the full unfiltered log, which
also stays unchanged in the session. -/
theorem single_date_skips_filter (log : List Reading) (f : Option CsvFile)
    (dateSel : List ℤ) (newRow : Reading)
    (hlen : dateSel.length ≠ 2) (hne : log ≠ []) :
    applyDateFilter log (some dateSel) = log ∧
    scriptRun false dateSel newRow ⟨some log, f⟩ =
      some (⟨some log, f⟩, renderDisplay log) ∧
    (∃ latest, log.getLast? = some latest ∧
      renderDisplay log = Display.dashboard latest (sortDesc log) (toCsv log)) := by
  have hfil : applyDateFilter log (some dateSel) = log := by
    rw [applyDateFilter, if_neg (fun h => hlen h.2)]
  refine ⟨hfil, ?_, ?_⟩
  · show some (({ session := some log, file := f } : AppState),
        renderDisplay (applyDateFilter log (if log = [] then none else some dateSel))) =
      some (⟨some log, f⟩, renderDisplay log)
    rw [if_neg hne, hfil]
  · cases hl : log.getLast? with
    | none => exact absurd (List.getLast?_eq_none_iff.mp hl) hne
    | some latest =>
      refine ⟨latest, rfl, ?_⟩
      rw [renderDisplay, hl]

/-- Witness for C10: a single-date selection on a one-entry log. -/
theorem single_date_skips_filter_witness :
    (([5] : List ℤ).length ≠ 2) ∧ (([⟨t0, 30, 80, 1⟩] : List Reading) ≠ []) ∧
    (applyDateFilter [⟨t0, 30, 80, 1⟩] (some [5]) = [⟨t0, 30, 80, 1⟩] ∧
    scriptRun false [5] ⟨t0, 29, 71, 2⟩ ⟨some [⟨t0, 30, 80, 1⟩], none⟩ =
      some (⟨some [⟨t0, 30, 80, 1⟩], none⟩, renderDisplay [⟨t0, 30, 80, 1⟩]) ∧
    (∃ latest, ([⟨t0, 30, 80, 1⟩] : List Reading).getLast? = some latest ∧
      renderDisplay [⟨t0, 30, 80, 1⟩] =
        Display.dashboard latest (sortDesc [⟨t0, 30, 80, 1⟩]) (toCsv [⟨t0, 30, 80, 1⟩]))) :=
  ⟨by decide, by simp,
    single_date_skips_filter [⟨t0, 30, 80, 1⟩] none [5] ⟨t0, 29, 71, 2⟩
      (by decide) (by simp)⟩

end SmartSOS
